import Mathlib

/-!
Shallow embedding of `msc_pygeoapi/loader/aqhi_realtime.py` (AQHI real-time
loader): filename parsing, feature-to-document transformation, loading, index
template installation, and retention cleanup.  JSON values are modelled by an
inductive type, Python dicts by key-value lists with Python dict semantics
(assignment replaces in place or appends; `pop` removes the key), exceptions by
`Except` / `Option` error values, and the generator by a function returning the
list of yielded actions together with the final loader state and the error, if
any, that interrupted the iteration.
-/

set_option autoImplicit false

namespace Aqhi

/-- JSON values (numbers restricted to integers; no claim depends on
floating-point arithmetic). -/
inductive Json where
  | null : Json
  | bool : Bool → Json
  | num : Int → Json
  | str : String → Json
  | arr : List Json → Json
  | obj : List (String × Json) → Json

/-- A Python dict with string keys, as an insertion-ordered key-value list. -/
abbrev Dict := List (String × Json)

/-- Python `d[k]`: first value stored under `k`, if any. -/
def Dict.get : Dict → String → Option Json
  | [], _ => none
  | (k', v') :: rest, k => if k' == k then some v' else Dict.get rest k

/-- Python `d[k] = v`: replace the value at `k` in place, or append a new entry
(Python dict assignment preserves insertion order). -/
def Dict.set : Dict → String → Json → Dict
  | [], k, v => [(k, v)]
  | (k', v') :: rest, k, v =>
    if k' == k then (k, v) :: rest else (k', v') :: Dict.set rest k v

/-- Python `d.pop(k)`: remove the entry stored under `k`. -/
def Dict.pop : Dict → String → Dict
  | [], _ => []
  | (k', v') :: rest, k =>
    if k' == k then Dict.pop rest k else (k', v') :: Dict.pop rest k

/-- A UTC timestamp at minute precision, as produced by
`datetime.strptime(date_, '%Y%m%d%H%M')`. -/
structure DateTime where
  year : Nat
  month : Nat
  day : Nat
  hour : Nat
  minute : Nat
deriving DecidableEq

/-- A calendar date (day granularity), as embedded in partition names. -/
structure Date where
  year : Nat
  month : Nat
  day : Nat
deriving DecidableEq

def isLeap (y : Nat) : Bool :=
  (y % 4 == 0 && y % 100 != 0) || y % 400 == 0

def daysInMonth (y m : Nat) : Nat :=
  if m == 2 then (if isLeap y then 29 else 28)
  else if m == 4 || m == 6 || m == 9 || m == 11 then 30
  else 31

/-- Day number of a civil date (monotone in chronological order), used to
compare partition dates against the retention cutoff. -/
def dayNumber (d : Date) : Nat :=
  let y := if d.month ≤ 2 then d.year - 1 else d.year
  let m := if d.month ≤ 2 then d.month + 12 else d.month
  365 * y + y / 4 - y / 100 + y / 400 + (153 * (m - 3) + 2) / 5 + d.day

/-- Whether one character list is a prefix of another. -/
def startsWithL : List Char → List Char → Bool
  | _, [] => true
  | [], _ :: _ => false
  | c :: cs, p :: ps => c == p && startsWithL cs ps

/-- Splits a character list at every occurrence of a separator character
(the semantics of `str.split` / `String.splitOn` for a one-character
separator). -/
def splitOnChar (sep : Char) : List Char → List (List Char)
  | [] => [[]]
  | c :: cs =>
    match splitOnChar sep cs with
    | [] => [[]]
    | piece :: rest =>
      if c == sep then [] :: piece :: rest else (c :: piece) :: rest

/-- Reads a non-empty all-digit character list as a natural number. -/
def digits? (cs : List Char) : Option Nat :=
  if cs ≠ [] ∧ cs.all Char.isDigit then
    some (cs.foldl (fun n c => 10 * n + (c.toNat - 48)) 0)
  else none

/-- Models `datetime.strptime(s, '%Y%m%d%H%M')`: twelve digits, strictly validated
(month, day-of-month including leap years, hour, minute); `none` models the
`ValueError` raised on malformed input. -/
def strptime12 (s : String) : Option DateTime :=
  let cs := s.toList
  if cs.length = 12 then
    match digits? (cs.take 4), digits? ((cs.drop 4).take 2),
          digits? ((cs.drop 6).take 2), digits? ((cs.drop 8).take 2),
          digits? ((cs.drop 10).take 2) with
    | some y, some mo, some d, some h, some mi =>
      if 1 ≤ mo ∧ mo ≤ 12 ∧ 1 ≤ d ∧ d ≤ daysInMonth y mo ∧ h ≤ 23 ∧ mi ≤ 59 then
        some ⟨y, mo, d, h, mi⟩
      else none
    | _, _, _, _, _ => none
  else none

def pad2 (n : Nat) : String :=
  if n < 10 then "0" ++ toString n else toString n

def pad4 (n : Nat) : String :=
  if n < 10 then "000" ++ toString n
  else if n < 100 then "00" ++ toString n
  else if n < 1000 then "0" ++ toString n
  else toString n

/-- Models `self.date_.strftime('%Y-%m-%d')`. -/
def strftimeYMD (dt : DateTime) : String :=
  pad4 dt.year ++ "-" ++ pad2 dt.month ++ "-" ++ pad2 dt.day

/-- The module constant `INDEX_BASENAME = 'aqhi_realtime_{}.'`, applied to a dataset kind token. -/
def INDEX_BASENAME (kind : String) : String :=
  "aqhi_realtime_" ++ kind ++ "."

/-- The module constant `DAYS_TO_KEEP = 366`. -/
def DAYS_TO_KEEP : Nat := 366

/-- Models `parse('AQ_{type}_{region}_{date_}.json', filename)` from the `parse`
library: anchored lazy fields, so `type` and `region` run to the next
underscore and `date_` takes the remainder before the `.json` suffix; every
field must be non-empty.  `none` models `parse` returning `None`. -/
def parsePattern (filename : String) : Option (String × String × String) :=
  let cs := filename.toList
  if startsWithL cs "AQ_".toList ∧
      startsWithL cs.reverse ".json".toList.reverse then
    match splitOnChar '_' (((cs.drop 3).reverse.drop 5).reverse) with
    | ty :: region :: rest =>
      if ty ≠ [] ∧ region ≠ [] ∧ rest ≠ [] ∧ List.intercalate ['_'] rest ≠ [] then
        some (String.mk ty, String.mk region,
              String.mk (List.intercalate ['_'] rest))
      else none
    | _ => none
  else none

/-- Errors raised inside `parse_filename`: `parsed_filename.named` on a failed
match (`AttributeError`) and `datetime.strptime` on a malformed timestamp
(`ValueError`). -/
inductive PErr where
  | attributeError : PErr
  | valueError : PErr
deriving DecidableEq

/-- Errors raised inside `generate_geojson_features`: `data['features']`
missing (`KeyError`), a non-object where a dict is required (`TypeError`),
`feature['ID']` missing (`KeyError('ID')`, the missing-identity failure),
`self.date_` unset (`AttributeError`), and `features` never assigned because
`self.type` matched neither branch (`UnboundLocalError`). -/
inductive TErr where
  | keyErrorFeatures : TErr
  | typeErr : TErr
  | missingIdentity : TErr
  | attrError : TErr
  | unboundLocal : TErr
deriving DecidableEq

inductive LoadErr where
  | parse : PErr → LoadErr
  | transform : TErr → LoadErr
deriving DecidableEq

/-- The mutable per-instance state of `AqhiRealtimeLoader` read or written by
`parse_filename`, `generate_geojson_features` and `load_data` (the `filepath`
attribute is passed explicitly as the filename / payload arguments). -/
structure LoaderSt where
  type : Option String
  region : Option String
  date_ : Option DateTime
  items : List Dict

/-- The attribute values set by `__init__`. -/
def initSt : LoaderSt := ⟨none, none, none, []⟩

/-- Models `AqhiRealtimeLoader.parse_filename`: match the pattern, map the type token
(`FCST` → `forecasts`, `OBS` → `observations`, anything else leaves
`self.type` unchanged — the two `if` statements have no `else`), store the
region and the strictly parsed timestamp, and return `True`. -/
def parse_filename (st : LoaderSt) (filename : String) :
    Except PErr (LoaderSt × Bool) :=
  match parsePattern filename with
  | none => .error .attributeError
  | some (ty, region, dateStr) =>
    let t1 := if ty == "FCST" then some "forecasts" else st.type
    let t2 := if ty == "OBS" then some "observations" else t1
    match strptime12 dateStr with
    | none => .error .valueError
    | some dt => .ok ({ st with type := t2, region := some region, date_ := some dt }, true)

/-- An Elasticsearch bulk action as built in `generate_geojson_features`:
`{'_id': feature['id'], '_index': es_index, '_op_type': 'update',
'doc': feature, 'doc_as_upsert': True}`. -/
structure Action where
  id : Json
  index : String
  op_type : String
  doc : Dict
  doc_as_upsert : Bool

/-- The loop body of `generate_geojson_features` for one feature:
`feature['id'] = feature['ID']` (reading `'ID'` first — its absence is the
missing-identity `KeyError`), `feature.pop('ID')`, compute `es_index` from
`self.type` and `self.date_`, and build the upsert action. -/
def transformFeature (ty : String) (date_ : Option DateTime) (f : Json) :
    Except TErr (Dict × Action) :=
  match f with
  | .obj kvs =>
    match Dict.get kvs "ID" with
    | none => .error .missingIdentity
    | some v =>
      let body := Dict.pop (Dict.set kvs "id" v) "ID"
      match date_ with
      | none => .error .attrError
      | some dt =>
        let es_index := INDEX_BASENAME ty ++ strftimeYMD dt
        .ok (body, ⟨v, es_index, "update", body, true⟩)
  | _ => .error .typeErr

/-- Runs the `for feature in features` loop of `generate_geojson_features`:
returns the actions yielded before any error, the accumulated `self.items`
(each transformed body is appended before its action is yielded), and the
error, if any, that interrupted the iteration. -/
def genRun (ty : String) (date_ : Option DateTime) (items : List Dict) :
    List Json → List Action × List Dict × Option TErr
  | [] => ([], items, none)
  | f :: fs =>
    match transformFeature ty date_ f with
    | .error e => ([], items, some e)
    | .ok (body, a) =>
      let rest := genRun ty date_ (items ++ [body]) fs
      (a :: rest.1, rest.2.1, rest.2.2)

/-- The feature extraction at the top of `generate_geojson_features`:
`data['features']` for forecasts, the whole payload as a single feature for
observations; any other `self.type` leaves `features` unbound. -/
def featuresOf (ty : Option String) (data : Json) : Except TErr (List Json) :=
  match ty with
  | some "forecasts" =>
    match data with
    | .obj kvs =>
      match Dict.get kvs "features" with
      | some (.arr fs) => .ok fs
      | some _ => .error .typeErr
      | none => .error .keyErrorFeatures
    | _ => .error .typeErr
  | some "observations" => .ok [data]
  | _ => .error .unboundLocal

/-- Models `AqhiRealtimeLoader.generate_geojson_features`, run to exhaustion on the
given payload: the yielded actions, the updated loader state, and the error
(if any) that ended the generator early. -/
def generate_geojson_features (st : LoaderSt) (data : Json) :
    List Action × LoaderSt × Option TErr :=
  match featuresOf st.type data with
  | .error e => ([], st, some e)
  | .ok fs =>
    match st.type with
    | some ty =>
      let r := genRun ty st.date_ st.items fs
      (r.1, { st with items := r.2.1 }, r.2.2)
    | none => ([], st, some .unboundLocal)

/-- Models `AqhiRealtimeLoader.load_data`: parse the filename, generate the features,
hand the whole package to `submit_elastic_package`, and return `True`.  The
returned list is the package of actions the generator yields to the connector;
an error anywhere propagates out of `load_data` unchanged. -/
def load_data (st : LoaderSt) (filename : String) (payload : Json) :
    Except LoadErr (LoaderSt × Bool × List Action) :=
  match parse_filename st filename with
  | .error e => .error (.parse e)
  | .ok (st1, _) =>
    match generate_geojson_features st1 payload with
    | (_, _, some e) => .error (.transform e)
    | (acts, st2, none) => .ok (st2, true, acts)

/-- Modelled from the spec: `submit_elastic_package` / `bulkSubmit`
(`ElasticsearchConnector`, not under `src/`) consumes the action sequence
lazily and submits fixed-size batches (`request_size`); when the sequence
raises mid-iteration, batches already submitted stay submitted and the
current unfinished batch is abandoned.  Given the number of actions the
generator yielded before stopping, this is how many were submitted. -/
def submittedOpsCount (yielded : Nat) (errored : Bool) (batchSize : Nat) : Nat :=
  if errored then yielded / batchSize * batchSize else yielded

/-- Models `datetime.strptime(s, '%Y-%m-%d')` for the trailing partition-name date. -/
def parseIsoDate (cs : List Char) : Option Date :=
  match splitOnChar '-' cs with
  | [ys, ms, ds] =>
    match digits? ys, digits? ms, digits? ds with
    | some y, some mo, some d =>
      if ys.length = 4 ∧ ms.length = 2 ∧ ds.length = 2 ∧
          1 ≤ mo ∧ mo ≤ 12 ∧ 1 ≤ d ∧ d ≤ daysInMonth y mo then
        some ⟨y, mo, d⟩
      else none
    | _, _, _ => none
  | _ => none

/-- Modelled from the spec: `check_es_indexes_to_delete` (`msc_pygeoapi.util`,
not under `src/`), the retention selector: keep the names whose trailing
`.`-separated component parses as a `YYYY-MM-DD` date strictly older than
today minus the retention days; a name whose date cannot be parsed is never
selected.  `today` is passed explicitly in place of `datetime.now()`. -/
def check_es_indexes_to_delete (indexes : List String) (days : Nat)
    (today : Date) : List String :=
  indexes.filter (fun name =>
    match parseIsoDate ((splitOnChar '.' name.toList).getLastD []) with
    | some d => decide (dayNumber d + days < dayNumber today)
    | none => false)

/-- The retention command `clean_indexes` (lines 325-344), applied to the
index names fetched from the store: when some indexes exist and the selector
picks a non-empty subset, the store delete is invoked with
`','.join(indexes)` — the code joins `indexes`, the full fetched list, not
`indexes_to_delete`.  The result is the argument passed to `conn.delete`,
or `none` when delete is not called. -/
def clean_indexes (today : Date) (indexes : List String) (days : Nat) :
    Option String :=
  if indexes ≠ [] then
    let indexes_to_delete := check_es_indexes_to_delete indexes days today
    if indexes_to_delete ≠ [] then some (String.intercalate "," indexes)
    else none
  else none

/-- The sub-field pattern `{'type': 'text', 'fields': {'raw': {'type':
'keyword'}}}` used throughout `MAPPINGS`. -/
def textRawField : Json :=
  .obj [("type", .str "text"),
        ("fields", .obj [("raw", .obj [("type", .str "keyword")])])]

/-- The sub-field `{'type': 'date', 'format': 'strict_date_time_no_millis'}`. -/
def strictDateField : Json :=
  .obj [("type", .str "date"), ("format", .str "strict_date_time_no_millis")]

/-- The value `MAPPINGS['forecasts']`. -/
def forecastsMapping : Json :=
  .obj [("properties", .obj [
    ("geometry", .obj [("type", .str "geo_shape")]),
    ("properties", .obj [("properties", .obj [
      ("ID", textRawField),
      ("aqhi_type", textRawField),
      ("region_name_en", textRawField),
      ("region_name_fr", textRawField),
      ("region", textRawField),
      ("datetime_utc", strictDateField),
      ("datetime_text_en", textRawField),
      ("datetime_text_fr", textRawField),
      ("hourly_forecast_utc", strictDateField),
      ("aqhi", .obj [("type", .str "byte")])])])])]

/-- The value `MAPPINGS['observations']`. -/
def observationsMapping : Json :=
  .obj [("properties", .obj [
    ("geometry", .obj [("type", .str "geo_shape")]),
    ("properties", .obj [("properties", .obj [
      ("ID", textRawField),
      ("aqhi_type", textRawField),
      ("region_name_en", textRawField),
      ("region_name_fr", textRawField),
      ("region", textRawField),
      ("datetime_utc", strictDateField),
      ("datetime_text_en", textRawField),
      ("datetime_text_fr", textRawField),
      ("aqhi", .obj [("type", .str "float")])])])])]

/-- The module-level `MAPPINGS` dict, in insertion order. -/
def MAPPINGS : List (String × Json) :=
  [("forecasts", forecastsMapping), ("observations", observationsMapping)]

/-- The module-level mutable `SETTINGS` dict. -/
structure Settings where
  order : Nat
  version : Nat
  index_patterns : Option (List String)
  settings : Dict
  mappings : Option Json

/-- The value of `SETTINGS` as written at module load. -/
def SETTINGS : Settings :=
  { order := 0, version := 1, index_patterns := none,
    settings := [("number_of_shards", .num 1), ("number_of_replicas", .num 0)],
    mappings := none }

/-- The template-installation loop of `AqhiRealtimeLoader.__init__`: for each
dataset kind in `MAPPINGS`, mutate the module-level `SETTINGS` in place and
call `self.conn.create_template(template_name, SETTINGS)`.  Returns the value
left in `SETTINGS` after the loop and the sequence of `create_template` calls
(each with the `SETTINGS` snapshot it saw). -/
def loaderInit (settings : Settings) : Settings × List (String × Settings) :=
  MAPPINGS.foldl
    (fun acc kv =>
      let template_name := INDEX_BASENAME kv.1
      let s := { acc.1 with index_patterns := some [template_name ++ "*"],
                            mappings := some kv.2 }
      (s, acc.2 ++ [(template_name, s)]))
    (settings, [])

/-! ### Concrete fixtures -/

/-- The issue timestamp parsed from `AQ_FCST_ON_202403150600.json`. -/
def dtC : DateTime := ⟨2024, 3, 15, 6, 0⟩

/-- A loader state as left by `parse_filename` on that forecast filename. -/
def stC : LoaderSt := ⟨some "forecasts", some "ON", some dtC, []⟩

/-- A feature carrying the mandatory identity field. -/
def goodF : Json := .obj [("ID", .str "R1")]

/-- A feature lacking the identity field. -/
def badF : Json := .obj [("aqhi", .num 2)]

/-- The document body produced from `goodF`. -/
def goodBody : Dict := [("id", .str "R1")]

/-- The bulk action produced from `goodF` in the forecast state `stC`. -/
def actC : Action :=
  ⟨.str "R1", "aqhi_realtime_forecasts.2024-03-15", "update", goodBody, true⟩

/-- A list of 80000 well-formed features followed by one missing its identity field:
the bad feature sits just past one full submission batch. -/
def bigFeatures : List Json := List.replicate 80000 goodF ++ [badF]

/-- The forecast payload wrapping `bigFeatures`. -/
def bigPayload : Json := .obj [("features", .arr bigFeatures)]

/-! ### Dictionary lemmas -/

theorem Dict.get_pop_self (d : Dict) (k : String) :
    Dict.get (Dict.pop d k) k = none := by
  induction d with
  | nil => rfl
  | cons kv rest ih =>
    obtain ⟨k', v'⟩ := kv
    by_cases h : k' = k
    · simp [Dict.pop, h, ih]
    · simp [Dict.pop, Dict.get, h, ih]

theorem Dict.get_pop_ne (d : Dict) (k k' : String) (hne : k ≠ k') :
    Dict.get (Dict.pop d k') k = Dict.get d k := by
  induction d with
  | nil => rfl
  | cons kv rest ih =>
    obtain ⟨ka, va⟩ := kv
    by_cases h : ka = k'
    · simp only [Dict.pop, Dict.get, beq_iff_eq, if_pos h, ih]
      rw [if_neg (fun hh : ka = k => hne (hh ▸ h))]
    · simp only [Dict.pop, Dict.get, beq_iff_eq, if_neg h]
      by_cases h2 : ka = k
      · simp [Dict.get, h2]
      · simp [Dict.get, h2, ih]

theorem Dict.get_set_self (d : Dict) (k : String) (v : Json) :
    Dict.get (Dict.set d k v) k = some v := by
  induction d with
  | nil => simp [Dict.set, Dict.get]
  | cons kv rest ih =>
    obtain ⟨ka, va⟩ := kv
    by_cases h : ka = k
    · simp [Dict.set, Dict.get, h]
    · simp [Dict.set, Dict.get, h, ih]

/-! ### Transform lemmas -/

/-- The shape of a successful single-feature transform: the body is the input
with `id` set to the identity value and `ID` popped, and the action carries
that body, the identity as `_id`, `_op_type = 'update'` and
`doc_as_upsert = True`. -/
theorem transformFeature_ok (ty : String) (d : Option DateTime) (kvs : Dict)
    (v : Json) (body : Dict) (a : Action)
    (hv : Dict.get kvs "ID" = some v)
    (h : transformFeature ty d (.obj kvs) = .ok (body, a)) :
    body = Dict.pop (Dict.set kvs "id" v) "ID" ∧ a.id = v ∧ a.doc = body ∧
      a.op_type = "update" ∧ a.doc_as_upsert = true := by
  simp only [transformFeature] at h
  rw [hv] at h
  cases d with
  | none => simp at h
  | some dt =>
    simp only [Except.ok.injEq, Prod.mk.injEq] at h
    obtain ⟨hb, ha⟩ := h
    subst hb
    subst ha
    exact ⟨rfl, rfl, rfl, rfl, rfl⟩

/-- A successful transform puts the computed per-file index name on the
action. -/
theorem transformFeature_index (ty : String) (dt : DateTime) (f : Json)
    (b : Dict) (a : Action)
    (h : transformFeature ty (some dt) f = .ok (b, a)) :
    a.index = INDEX_BASENAME ty ++ strftimeYMD dt := by
  cases f with
  | obj kvs =>
    simp only [transformFeature] at h
    cases hv : Dict.get kvs "ID" with
    | none => rw [hv] at h; simp at h
    | some v =>
      rw [hv] at h
      simp only [Except.ok.injEq, Prod.mk.injEq] at h
      rw [← h.2]
  | null => simp [transformFeature] at h
  | bool b' => simp [transformFeature] at h
  | num n => simp [transformFeature] at h
  | str s => simp [transformFeature] at h
  | arr xs => simp [transformFeature] at h

/-! ### Claim theorems -/

/-- C1 (code_bug): on the fetched index list
`[aqhi_realtime_forecasts.2023-12-01, aqhi_realtime_forecasts.2024-06-01]`
with the default 366-day retention and current date 2025-01-01, the retention
selector picks only the 2023-12-01 partition, yet `clean_indexes` invokes the
store delete with both names joined — `conn.delete(','.join(indexes))` joins
the full fetched list instead of `indexes_to_delete`, deleting a partition
outside the retention selection. -/
theorem clean_indexes_deletes_beyond_selection :
    check_es_indexes_to_delete
        ["aqhi_realtime_forecasts.2023-12-01",
         "aqhi_realtime_forecasts.2024-06-01"] DAYS_TO_KEEP ⟨2025, 1, 1⟩ =
      ["aqhi_realtime_forecasts.2023-12-01"] ∧
    clean_indexes ⟨2025, 1, 1⟩
        ["aqhi_realtime_forecasts.2023-12-01",
         "aqhi_realtime_forecasts.2024-06-01"] DAYS_TO_KEEP =
      some "aqhi_realtime_forecasts.2023-12-01,aqhi_realtime_forecasts.2024-06-01" :=
  ⟨rfl, rfl⟩

/-- C2 (counterexample): the observation feature `{"ID": "R001", "aqhi": 3}`
transforms to an action whose document body still contains the identity value
`"R001"`, stored under the key `id` (while `ID` itself is gone) — the body
does not lack the identity value. -/
theorem transform_keeps_identity_value_in_body :
    (transformFeature "observations" (some dtC)
        (.obj [("ID", .str "R001"), ("aqhi", .num 3)])).toOption.map
      (fun r => (Dict.get r.2.doc "id", Dict.get r.2.doc "ID")) =
    some (some (.str "R001"), none) := rfl

/-- C2 (amended): for every feature carrying the identity field, the emitted
body has the `ID` field removed and the identity value promoted to the
action's document id, but the value is also stored in the body under the key
`id`. -/
theorem transform_promotes_identity (ty : String) (d : Option DateTime)
    (kvs : Dict) (v : Json) (body : Dict) (a : Action)
    (hv : Dict.get kvs "ID" = some v)
    (h : transformFeature ty d (.obj kvs) = .ok (body, a)) :
    Dict.get body "ID" = none ∧ a.id = v ∧ Dict.get body "id" = some v := by
  obtain ⟨hb, hid, -, -, -⟩ := transformFeature_ok ty d kvs v body a hv h
  subst hb
  refine ⟨Dict.get_pop_self _ _, hid, ?_⟩
  rw [Dict.get_pop_ne _ _ _ (by decide)]
  exact Dict.get_set_self _ _ _

/-- C2 (witness): the amended statement evaluated on the observation feature
`{"ID": "R001", "aqhi": 3}`. -/
theorem transform_promotes_identity_witness :
    Dict.get [("aqhi", Json.num 3), ("id", Json.str "R001")] "ID" = none ∧
    Action.id ⟨Json.str "R001", "aqhi_realtime_observations.2024-03-15",
        "update", [("aqhi", Json.num 3), ("id", Json.str "R001")], true⟩ =
      Json.str "R001" ∧
    Dict.get [("aqhi", Json.num 3), ("id", Json.str "R001")] "id" =
      some (Json.str "R001") :=
  transform_promotes_identity "observations" (some dtC)
    [("ID", .str "R001"), ("aqhi", .num 3)] (.str "R001") _ _ rfl rfl

/-- C10: every successfully transformed feature yields an action with
`_op_type = 'update'`, `doc_as_upsert = True`, `_id` equal to the feature's
original `ID` value, and that same value stored in the document body under
the key `id`. -/
theorem action_upsert_shape (ty : String) (d : Option DateTime) (kvs : Dict)
    (v : Json) (body : Dict) (a : Action)
    (hv : Dict.get kvs "ID" = some v)
    (h : transformFeature ty d (.obj kvs) = .ok (body, a)) :
    a.op_type = "update" ∧ a.doc_as_upsert = true ∧ a.id = v ∧
      Dict.get a.doc "id" = some v := by
  obtain ⟨hb, hid, hdoc, hop, hup⟩ := transformFeature_ok ty d kvs v body a hv h
  refine ⟨hop, hup, hid, ?_⟩
  rw [hdoc, hb, Dict.get_pop_ne _ _ _ (by decide)]
  exact Dict.get_set_self _ _ _

/-- C10 (witness): the action shape evaluated on the forecast feature
`{"ID": "R1"}`. -/
theorem action_upsert_shape_witness :
    Action.op_type actC = "update" ∧ Action.doc_as_upsert actC = true ∧
    Action.id actC = Json.str "R1" ∧
    Dict.get (Action.doc actC) "id" = some (Json.str "R1") :=
  action_upsert_shape "forecasts" (some dtC) [("ID", .str "R1")]
    (.str "R1") goodBody actC rfl rfl

/-- C4 (counterexample): the filename `AQ_XXX_ON_202403150600.json`, whose
type token is neither `FCST` nor `OBS`, does not make `parse_filename` fail:
it returns `True` with the region and timestamp set and `self.type` left at
`None` — a partial parse, not a `ParseError`. -/
theorem unknown_type_token_parse_returns_ok :
    parse_filename initSt "AQ_XXX_ON_202403150600.json" =
      .ok (⟨none, some "ON", some dtC, []⟩, true) := rfl

/-- C4 (amended): for every filename matching the grammar whose type token is
neither `FCST` nor `OBS`, `parse_filename` succeeds (returns `True`) with
region and timestamp stored but the dataset type unchanged — never a guessed
kind; when the type was still unset, the failure surfaces only later, in
`generate_geojson_features`, as the unbound-`features` error. -/
theorem unknown_type_token_leaves_type_unset (st : LoaderSt)
    (name ty region ds : String) (dt : DateTime)
    (hp : parsePattern name = some (ty, region, ds))
    (hf : ty ≠ "FCST") (ho : ty ≠ "OBS")
    (hd : strptime12 ds = some dt) :
    parse_filename st name =
      .ok ({ st with region := some region, date_ := some dt }, true) ∧
    (st.type = none → ∀ data,
      (generate_geojson_features
          { st with region := some region, date_ := some dt } data).2.2 =
        some .unboundLocal ∧
      (generate_geojson_features
          { st with region := some region, date_ := some dt } data).1 = []) := by
  constructor
  · unfold parse_filename
    rw [hp]
    simp only [hd, beq_iff_eq, if_neg hf, if_neg ho]
  · intro hty data
    unfold generate_geojson_features
    simp only [hty]
    exact ⟨rfl, rfl⟩

/-- C4 (witness): the amended statement evaluated on
`AQ_XXX_ON_202403150600.json` from a fresh loader state and an empty payload. -/
theorem unknown_type_token_leaves_type_unset_witness :
    parse_filename initSt "AQ_XXX_ON_202403150600.json" =
      .ok ({ initSt with region := some "ON", date_ := some dtC }, true) ∧
    (generate_geojson_features
        { initSt with region := some "ON", date_ := some dtC }
        (.obj [])).2.2 = some .unboundLocal :=
  ⟨(unknown_type_token_leaves_type_unset initSt "AQ_XXX_ON_202403150600.json"
      "XXX" "ON" "202403150600" dtC rfl (by decide) (by decide) rfl).1,
   ((unknown_type_token_leaves_type_unset initSt "AQ_XXX_ON_202403150600.json"
      "XXX" "ON" "202403150600" dtC rfl (by decide) (by decide) rfl).2 rfl
      (.obj [])).1⟩

/-! ### Generator lemmas -/

/-- One step of the feature loop when the head feature transforms
successfully. -/
theorem genRun_cons_ok (ty : String) (d : Option DateTime) (its : List Dict)
    (f : Json) (fs : List Json) (body : Dict) (a : Action)
    (hf : transformFeature ty d f = .ok (body, a)) :
    genRun ty d its (f :: fs) =
      (a :: (genRun ty d (its ++ [body]) fs).1,
       (genRun ty d (its ++ [body]) fs).2.1,
       (genRun ty d (its ++ [body]) fs).2.2) := by
  simp only [genRun, hf]

/-- One step of the feature loop when the head feature raises. -/
theorem genRun_cons_err (ty : String) (d : Option DateTime) (its : List Dict)
    (f : Json) (fs : List Json) (e : TErr)
    (hf : transformFeature ty d f = .error e) :
    genRun ty d its (f :: fs) = ([], its, some e) := by
  simp only [genRun, hf]

/-- The yielded actions and the terminating error do not depend on the
`self.items` accumulator. -/
theorem genRun_acts_err_congr (ty : String) (d : Option DateTime)
    (fs : List Json) (its its' : List Dict) :
    (genRun ty d its fs).1 = (genRun ty d its' fs).1 ∧
    (genRun ty d its fs).2.2 = (genRun ty d its' fs).2.2 := by
  induction fs generalizing its its' with
  | nil => exact ⟨rfl, rfl⟩
  | cons f fs ih =>
    rcases hf : transformFeature ty d f with e | ⟨body, a⟩
    · rw [genRun_cons_err ty d its f fs e hf, genRun_cons_err ty d its' f fs e hf]
      exact ⟨rfl, rfl⟩
    · rw [genRun_cons_ok ty d its f fs body a hf,
          genRun_cons_ok ty d its' f fs body a hf]
      exact ⟨by rw [show (genRun ty d (its ++ [body]) fs).1 =
                      (genRun ty d (its' ++ [body]) fs).1 from
                      (ih (its ++ [body]) (its' ++ [body])).1],
             (ih (its ++ [body]) (its' ++ [body])).2⟩

/-- Exactly one body is appended to `self.items` per yielded action. -/
theorem genRun_items_len (ty : String) (d : Option DateTime)
    (fs : List Json) (its : List Dict) :
    (genRun ty d its fs).2.1.length =
      its.length + (genRun ty d its fs).1.length := by
  induction fs generalizing its with
  | nil => simp [genRun]
  | cons f fs ih =>
    rcases hf : transformFeature ty d f with e | ⟨body, a⟩
    · rw [genRun_cons_err ty d its f fs e hf]
      show its.length = its.length + ([] : List Action).length
      simp
    · rw [genRun_cons_ok ty d its f fs body a hf]
      show (genRun ty d (its ++ [body]) fs).2.1.length =
        its.length + (a :: (genRun ty d (its ++ [body]) fs).1).length
      rw [ih (its ++ [body])]
      simp only [List.length_append, List.length_cons, List.length_nil]
      omega

/-- Every yielded action targets the per-file partition index computed from
the dataset kind and the issue date. -/
theorem genRun_index (ty : String) (dt : DateTime) (fs : List Json)
    (its : List Dict) (a : Action)
    (ha : a ∈ (genRun ty (some dt) its fs).1) :
    a.index = INDEX_BASENAME ty ++ strftimeYMD dt := by
  induction fs generalizing its with
  | nil => simp [genRun] at ha
  | cons f fs ih =>
    cases hf : transformFeature ty (some dt) f with
    | error e =>
      rw [genRun_cons_err ty (some dt) its f fs e hf] at ha
      simp at ha
    | ok ba =>
      obtain ⟨body, a2⟩ := ba
      rw [genRun_cons_ok ty (some dt) its f fs body a2 hf] at ha
      have ha2 : a ∈ a2 :: (genRun ty (some dt) (its ++ [body]) fs).1 := ha
      rw [List.mem_cons] at ha2
      cases ha2 with
      | inl h => exact h ▸ transformFeature_index ty dt f body a2 hf
      | inr h => exact ih (its ++ [body]) h

/-- Whether a single feature transforms without error. -/
def transformOk (ty : String) (d : Option DateTime) (f : Json) : Bool :=
  match transformFeature ty d f with
  | .ok _ => true
  | .error _ => false

/-- Whether a feature is an object lacking the identity field `ID`. -/
def missingID : Json → Bool
  | .obj kvs => (Dict.get kvs "ID").isNone
  | _ => false

/-- Running the loop over well-formed features followed by one that raises
the missing-identity error: the error surfaces, and exactly the actions for
the preceding features were yielded. -/
theorem genRun_until_bad (ty : String) (d : Option DateTime)
    (post : List Json) (bad : Json)
    (hbadT : transformFeature ty d bad = .error .missingIdentity)
    (pre : List Json) :
    pre.all (transformOk ty d) = true → ∀ its,
      (genRun ty d its (pre ++ bad :: post)).2.2 = some .missingIdentity ∧
      (genRun ty d its (pre ++ bad :: post)).1.length = pre.length := by
  induction pre with
  | nil =>
    intro _ its
    simp only [List.nil_append]
    constructor <;> simp [genRun, hbadT]
  | cons f pre ih =>
    intro hpre its
    simp only [List.all_cons, Bool.and_eq_true] at hpre
    obtain ⟨hf, hrest⟩ := hpre
    rcases hok : transformFeature ty d f with e | ⟨body, a⟩
    · simp [transformOk, hok] at hf
    · rw [List.cons_append, genRun_cons_ok ty d its f _ body a hok]
      exact ⟨(ih hrest (its ++ [body])).1,
             by simp [List.length_cons, (ih hrest (its ++ [body])).2]⟩

/-- The loop over 80000 well-formed forecast features followed by the bad
one, fully characterized. -/
theorem genRun_replicate (n : Nat) (its : List Dict) :
    genRun "forecasts" (some dtC) its (List.replicate n goodF ++ [badF]) =
      (List.replicate n actC, its ++ List.replicate n goodBody,
       some .missingIdentity) := by
  induction n generalizing its with
  | zero =>
    simp only [List.replicate, List.nil_append]
    rw [show genRun "forecasts" (some dtC) its [badF] =
        ([], its, some .missingIdentity) from rfl]
    simp
  | succ n ih =>
    rw [List.replicate_succ, List.cons_append,
        genRun_cons_ok "forecasts" (some dtC) its goodF _ goodBody actC rfl,
        ih (its ++ [goodBody])]
    simp [List.replicate_succ, List.append_assoc]

/-! ### Parse and generate lemmas -/

/-- The `self.type` assignment of `parse_filename` as a function of the type
token and the previous value: the two `if` statements with no `else`. -/
def typeUpdate (ty : String) (t : Option String) : Option String :=
  if ty == "OBS" then some "observations"
  else if ty == "FCST" then some "forecasts" else t

theorem typeUpdate_idem (ty : String) (t : Option String) :
    typeUpdate ty (typeUpdate ty t) = typeUpdate ty t := by
  unfold typeUpdate
  by_cases h1 : ty == "OBS" <;> by_cases h2 : ty == "FCST" <;> simp [h1, h2]

/-- The result of `parse_filename` when the pattern matches and the
timestamp parses. -/
theorem parse_filename_eq (st : LoaderSt) (f ty region ds : String)
    (dt : DateTime) (hp : parsePattern f = some (ty, region, ds))
    (hd : strptime12 ds = some dt) :
    parse_filename st f =
      .ok ({ st with
               type := typeUpdate ty st.type,
               region := some region,
               date_ := some dt }, true) := by
  simp only [parse_filename, hp, hd, typeUpdate]

/-- The method `parse_filename` never touches `self.items`. -/
theorem parse_filename_items (st : LoaderSt) (f : String) (s1 : LoaderSt)
    (b : Bool) (h : parse_filename st f = .ok (s1, b)) :
    s1.items = st.items := by
  rcases hpp : parsePattern f with _ | ⟨ty, region, ds⟩
  · simp [parse_filename, hpp] at h
  · rcases hdt : strptime12 ds with _ | dt
    · simp [parse_filename, hpp, hdt] at h
    · rw [parse_filename_eq st f ty region ds dt hpp hdt] at h
      simp only [Except.ok.injEq, Prod.mk.injEq] at h
      rw [← h.1]

/-- The generator leaves every loader attribute except `items` unchanged. -/
theorem generate_fields (st : LoaderSt) (p : Json) :
    (generate_geojson_features st p).2.1.type = st.type ∧
    (generate_geojson_features st p).2.1.region = st.region ∧
    (generate_geojson_features st p).2.1.date_ = st.date_ := by
  unfold generate_geojson_features
  cases featuresOf st.type p with
  | error e => exact ⟨rfl, rfl, rfl⟩
  | ok fs =>
    cases hst : st.type with
    | none => exact ⟨hst, rfl, rfl⟩
    | some ty => exact ⟨rfl, rfl, rfl⟩

/-- The yielded actions and the terminating error depend only on the `type`
and `date_` attributes, not on the accumulated `items`. -/
theorem generate_congr (st st' : LoaderSt) (p : Json)
    (hty : st'.type = st.type) (hd : st'.date_ = st.date_) :
    (generate_geojson_features st' p).1 = (generate_geojson_features st p).1 ∧
    (generate_geojson_features st' p).2.2 =
      (generate_geojson_features st p).2.2 := by
  unfold generate_geojson_features
  rw [hty, hd]
  cases featuresOf st.type p with
  | error e => exact ⟨rfl, rfl⟩
  | ok fs =>
    cases hst : st.type with
    | none => exact ⟨rfl, rfl⟩
    | some ty =>
      exact ⟨(genRun_acts_err_congr ty st.date_ fs st'.items st.items).1,
             (genRun_acts_err_congr ty st.date_ fs st'.items st.items).2⟩

/-- After a full generator run, `self.items` has grown by exactly one body
per yielded action. -/
theorem generate_items_len (st : LoaderSt) (p : Json) :
    (generate_geojson_features st p).2.1.items.length =
      st.items.length + (generate_geojson_features st p).1.length := by
  unfold generate_geojson_features
  cases featuresOf st.type p with
  | error e => simp
  | ok fs =>
    cases hst : st.type with
    | none => simp
    | some ty => exact genRun_items_len ty st.date_ fs st.items

/-- The generator's actions are empty or come from one loop run. -/
theorem generate_acts_sub (st : LoaderSt) (data : Json) :
    (generate_geojson_features st data).1 = [] ∨
    ∃ ty fs, st.type = some ty ∧
      (generate_geojson_features st data).1 =
        (genRun ty st.date_ st.items fs).1 := by
  unfold generate_geojson_features
  cases featuresOf st.type data with
  | error e => exact .inl rfl
  | ok fs =>
    cases hst : st.type with
    | none => exact .inl rfl
    | some ty => exact .inr ⟨ty, fs, rfl, rfl⟩

/-- Every action the generator yields targets the partition computed from
the loader's dataset kind and issue date. -/
theorem generate_index (st : LoaderSt) (ty : String) (dt : DateTime)
    (data : Json) (a : Action) (hty : st.type = some ty)
    (hdt : st.date_ = some dt)
    (ha : a ∈ (generate_geojson_features st data).1) :
    a.index = INDEX_BASENAME ty ++ strftimeYMD dt := by
  rcases generate_acts_sub st data with h | ⟨ty2, fs, hty2, hacts⟩
  · rw [h] at ha; simp at ha
  · rw [hacts] at ha
    rw [hty] at hty2
    injection hty2 with h2
    subst h2
    rw [hdt] at ha
    exact genRun_index ty dt fs st.items a ha

/-! ### More fixtures -/

/-- A one-feature forecast payload. -/
def p1 : Json := .obj [("features", .arr [.obj [("ID", .str "R1")]])]

/-- A three-feature forecast payload. -/
def p3 : Json :=
  .obj [("features", .arr [.obj [("ID", .str "R1")], .obj [("ID", .str "R2")],
                           .obj [("ID", .str "R3")]])]

/-- The loader state left by loading `p1` from a fresh loader. -/
def st1C : LoaderSt := ⟨some "forecasts", some "ON", some dtC, [goodBody]⟩

/-- C8 (counterexample): constructing a loader mutates the module-level
`SETTINGS`: after the `__init__` template loop its `index_patterns` holds the
last dataset kind's pattern instead of the initial `None`. -/
theorem init_mutates_module_settings :
    (loaderInit SETTINGS).1.index_patterns =
      some ["aqhi_realtime_observations.*"] ∧
    SETTINGS.index_patterns = none ∧
    (loaderInit SETTINGS).1.index_patterns ≠ SETTINGS.index_patterns :=
  ⟨rfl, rfl, by decide⟩

/-- On an interrupted sequence the connector has submitted the completed
full batches. -/
theorem submittedOpsCount_true (n b : Nat) :
    submittedOpsCount n true b = n / b * b := rfl

/-- When the generator ends in an error, `load_data` propagates it. -/
theorem load_data_err_of_generate (st : LoaderSt) (f : String) (p : Json)
    (s1 : LoaderSt) (b1 : Bool) (e : TErr) (acts : List Action)
    (s2 : LoaderSt) (hp : parse_filename st f = .ok (s1, b1))
    (hg : generate_geojson_features s1 p = (acts, s2, some e)) :
    load_data st f p = .error (.transform e) := by
  simp only [load_data, hp, hg]

/-- The generator run on the 80000-plus-one payload, fully characterized. -/
theorem generate_bigPayload_eq : generate_geojson_features stC bigPayload =
    (List.replicate 80000 actC,
     { stC with items := ([] : List Dict) ++ List.replicate 80000 goodBody },
     some TErr.missingIdentity) := by
  have hrep := genRun_replicate 80000 []
  have hsame : generate_geojson_features stC bigPayload =
      ((genRun "forecasts" stC.date_ stC.items bigFeatures).1,
       { stC with items :=
           (genRun "forecasts" stC.date_ stC.items bigFeatures).2.1 },
       (genRun "forecasts" stC.date_ stC.items bigFeatures).2.2) := rfl
  have hargs : genRun "forecasts" stC.date_ stC.items bigFeatures =
      genRun "forecasts" (some dtC) [] bigFeatures := by
    rw [show stC.date_ = some dtC from rfl,
        show stC.items = ([] : List Dict) from rfl]
  rw [hargs, show bigFeatures = List.replicate 80000 goodF ++ [badF] from rfl,
      hrep] at hsame
  exact hsame

/-- C3 (counterexample): a forecast payload of 80000 well-formed features
followed by one lacking the identity field: the load fails with the
missing-identity error, but the generator has already yielded one full
submission batch (`request_size = 80000`) of actions, which the connector
submitted — not zero operations. -/
theorem missing_identity_after_full_batch :
    load_data initSt "AQ_FCST_ON_202403150600.json" bigPayload =
      .error (.transform .missingIdentity) ∧
    submittedOpsCount
      (genRun "forecasts" (some dtC) [] bigFeatures).1.length true 80000 =
      80000 := by
  constructor
  · exact load_data_err_of_generate initSt "AQ_FCST_ON_202403150600.json"
      bigPayload stC true TErr.missingIdentity (List.replicate 80000 actC)
      { stC with items := ([] : List Dict) ++ List.replicate 80000 goodBody }
      rfl generate_bigPayload_eq
  · have hacts : (genRun "forecasts" (some dtC) [] bigFeatures).1 =
        List.replicate 80000 actC := by
      rw [show bigFeatures = List.replicate 80000 goodF ++ [badF] from rfl,
          genRun_replicate 80000 []]
    rw [submittedOpsCount_true, hacts, List.length_replicate]

/-- C3 (amended): a feature without the identity field aborts the whole file
with the missing-identity error at the first such feature — nothing after it
is yielded, no record is silently skipped — and the connector has submitted
only previously completed full batches: zero operations whenever fewer than
one batch (80000 actions in the code) preceded the bad feature. -/
theorem missing_identity_aborts (ty : String) (d : Option DateTime)
    (its : List Dict) (pre post : List Json) (bad : Json)
    (hpre : pre.all (transformOk ty d) = true) (hbad : missingID bad = true) :
    (genRun ty d its (pre ++ bad :: post)).2.2 = some .missingIdentity ∧
    (genRun ty d its (pre ++ bad :: post)).1.length = pre.length ∧
    (pre.length < 80000 →
      submittedOpsCount (genRun ty d its (pre ++ bad :: post)).1.length true
        80000 = 0) := by
  have hbadT : transformFeature ty d bad = .error .missingIdentity := by
    cases bad with
    | obj kvs =>
      simp only [missingID] at hbad
      cases hg : Dict.get kvs "ID" with
      | none => simp only [transformFeature, hg]
      | some v => rw [hg] at hbad; simp at hbad
    | null => simp [missingID] at hbad
    | bool b => simp [missingID] at hbad
    | num n => simp [missingID] at hbad
    | str s => simp [missingID] at hbad
    | arr xs => simp [missingID] at hbad
  obtain ⟨h1, h2⟩ := genRun_until_bad ty d post bad hbadT pre hpre its
  refine ⟨h1, h2, fun hlt => ?_⟩
  rw [h2]
  show pre.length / 80000 * 80000 = 0
  rw [Nat.div_eq_of_lt hlt, Nat.zero_mul]

/-- C3 (witness): the amended statement on one good feature followed by the
bad one. -/
theorem missing_identity_aborts_witness :
    (genRun "forecasts" (some dtC) [] ([goodF] ++ badF :: [])).2.2 =
      some TErr.missingIdentity ∧
    (genRun "forecasts" (some dtC) [] ([goodF] ++ badF :: [])).1.length = 1 ∧
    submittedOpsCount
      (genRun "forecasts" (some dtC) [] ([goodF] ++ badF :: [])).1.length
      true 80000 = 0 := by
  obtain ⟨h1, h2, h3⟩ :=
    missing_identity_aborts "forecasts" (some dtC) [] [goodF] [] badF rfl rfl
  exact ⟨h1, h2, h3 (by decide)⟩

/-- C5 (counterexample): `load_data` returns the constant `True`, not a
document count: two successful loads transforming different numbers of
documents (1 and 3, visible in the retained `items`) both return exactly
`true`. -/
theorem load_data_returns_true_not_count :
    (load_data initSt "AQ_FCST_ON_202403150600.json" p1).toOption.map
        (fun r => r.2.1) = some true ∧
    (load_data initSt "AQ_FCST_ON_202403150600.json" p3).toOption.map
        (fun r => r.2.1) = some true ∧
    (load_data initSt "AQ_FCST_ON_202403150600.json" p1).toOption.map
        (fun r => r.1.items.length) = some 1 ∧
    (load_data initSt "AQ_FCST_ON_202403150600.json" p3).toOption.map
        (fun r => r.1.items.length) = some 3 :=
  ⟨rfl, rfl, rfl, rfl⟩

/-- C5 (amended): a successful `load_data` returns the boolean `True`; the
per-file document count is not the return value but is recoverable from the
loader, whose `items` list has grown by exactly one entry per document in
the submitted package. -/
theorem load_data_true_and_items_count (st : LoaderSt) (f : String) (p : Json)
    (st' : LoaderSt) (b : Bool) (pkg : List Action)
    (h : load_data st f p = .ok (st', b, pkg)) :
    b = true ∧ st'.items.length = st.items.length + pkg.length := by
  cases hp : parse_filename st f with
  | error e => simp [load_data, hp] at h
  | ok r =>
    obtain ⟨s1, b1⟩ := r
    simp only [load_data, hp] at h
    rcases hg : generate_geojson_features s1 p with ⟨acts, s2, err⟩
    rw [hg] at h
    cases err with
    | some e => simp at h
    | none =>
      have h' : (Except.ok (s2, true, acts) :
          Except LoadErr (LoaderSt × Bool × List Action)) =
          .ok (st', b, pkg) := h
      simp only [Except.ok.injEq, Prod.mk.injEq] at h'
      obtain ⟨hs2, hb, hacts⟩ := h'
      refine ⟨hb.symm, ?_⟩
      have hitems := generate_items_len s1 p
      rw [hg] at hitems
      have hitems2 : s2.items.length = s1.items.length + acts.length := hitems
      rw [← hs2, hitems2, parse_filename_items st f s1 b1 hp, hacts]

/-- C5 (witness): the amended statement on a fresh load of the one-feature
payload. -/
theorem load_data_true_and_items_count_witness :
    (true : Bool) = true ∧
    st1C.items.length = initSt.items.length + [actC].length :=
  load_data_true_and_items_count initSt "AQ_FCST_ON_202403150600.json" p1
    st1C true [actC] rfl

/-- C6: `AQ_FCST_ON_202403150600.json` parses to the forecast kind, region
`ON` and issue timestamp 2024-03-15T06:00Z, and every action generated from
that file targets the partition `aqhi_realtime_forecasts.2024-03-15`. -/
theorem forecast_filename_scenario (st : LoaderSt) (b : Bool) (data : Json)
    (a : Action)
    (hparse : parse_filename initSt "AQ_FCST_ON_202403150600.json" =
      .ok (st, b))
    (ha : a ∈ (generate_geojson_features st data).1) :
    st.type = some "forecasts" ∧ st.region = some "ON" ∧
    st.date_ = some dtC ∧
    a.index = "aqhi_realtime_forecasts.2024-03-15" := by
  rw [show parse_filename initSt "AQ_FCST_ON_202403150600.json" =
      .ok (stC, true) from rfl] at hparse
  simp only [Except.ok.injEq, Prod.mk.injEq] at hparse
  obtain ⟨h1, -⟩ := hparse
  subst h1
  refine ⟨rfl, rfl, rfl, ?_⟩
  have hidx := generate_index stC "forecasts" dtC data a rfl rfl ha
  rw [hidx]
  rfl

/-- C6 (witness): the scenario evaluated on the one-feature payload. -/
theorem forecast_filename_scenario_witness :
    stC.type = some "forecasts" ∧ stC.region = some "ON" ∧
    stC.date_ = some dtC ∧
    actC.index = "aqhi_realtime_forecasts.2024-03-15" := by
  refine forecast_filename_scenario stC true p1 actC rfl ?_
  rw [show (generate_geojson_features stC p1).1 = [actC] from rfl]
  exact List.mem_singleton.mpr rfl

/-- C7: re-running `load_data` on the same file and payload is idempotent:
a second load from the state left by the first succeeds and hands the
connector an identical package — the same document ids, target partitions
and document bodies. -/
theorem load_data_idempotent (st st1 : LoaderSt) (f : String) (p : Json)
    (b1 : Bool) (pkg1 : List Action)
    (h1 : load_data st f p = .ok (st1, b1, pkg1)) :
    (load_data st1 f p).toOption.map (fun r => r.2.2) = some pkg1 := by
  rcases hpp : parsePattern f with _ | ⟨ty, region, ds⟩
  · simp [load_data, parse_filename, hpp] at h1
  · rcases hdt : strptime12 ds with _ | dt
    · simp [load_data, parse_filename, hpp, hdt] at h1
    · simp only [load_data, parse_filename_eq st f ty region ds dt hpp hdt]
        at h1
      simp only [load_data, parse_filename_eq st1 f ty region ds dt hpp hdt]
      rcases hg : generate_geojson_features
          { st with
              type := typeUpdate ty st.type,
              region := some region,
              date_ := some dt } p with ⟨acts, s2, err⟩
      rw [hg] at h1
      cases err with
      | some e => simp at h1
      | none =>
        have h1' : (Except.ok (s2, true, acts) :
            Except LoadErr (LoaderSt × Bool × List Action)) =
            .ok (st1, b1, pkg1) := h1
        simp only [Except.ok.injEq, Prod.mk.injEq] at h1'
        obtain ⟨hs2, -, hacts⟩ := h1'
        have hfields := generate_fields
          { st with
              type := typeUpdate ty st.type,
              region := some region,
              date_ := some dt } p
        rw [hg] at hfields
        have hty1 : st1.type = typeUpdate ty st.type := by
          rw [← hs2]; exact hfields.1
        rw [hty1, typeUpdate_idem]
        have hcong := generate_congr
          { st with
              type := typeUpdate ty st.type,
              region := some region,
              date_ := some dt }
          { st1 with
              type := typeUpdate ty st.type,
              region := some region,
              date_ := some dt } p rfl rfl
        rw [hg] at hcong
        rcases hg2 : generate_geojson_features
            { st1 with
                type := typeUpdate ty st.type,
                region := some region,
                date_ := some dt } p with ⟨acts2, s3, err2⟩
        rw [hg2] at hcong
        have hacts2 : acts2 = acts := hcong.1
        have herr2 : err2 = none := hcong.2
        subst herr2
        rw [hacts2, hacts]
        rfl

/-- C7 (witness): the second load of the one-feature payload returns the
same one-action package as the first. -/
theorem load_data_idempotent_witness :
    (load_data st1C "AQ_FCST_ON_202403150600.json" p1).toOption.map
      (fun r => r.2.2) = some [actC] :=
  load_data_idempotent initSt st1C "AQ_FCST_ON_202403150600.json" p1 true
    [actC] rfl

/-- C9 (counterexample): the transformer's retained state grows with the
file: generating from a one-feature payload leaves one body retained in
`self.items`, from a three-feature payload three — O(file size), not
bounded independently of the number of features. -/
theorem items_growth_with_file_size :
    (generate_geojson_features stC p1).2.1.items.length = 1 ∧
    (generate_geojson_features stC p3).2.1.items.length = 3 := ⟨rfl, rfl⟩

/-- C9 (amended): operations are yielded one per feature, but the loader
appends every transformed body to `self.items`: after any generator run the
retained `items` list has grown by exactly the number of yielded
operations, i.e. linearly in the number of features processed. -/
theorem generate_retains_all_features (st : LoaderSt) (p : Json) :
    (generate_geojson_features st p).2.1.items.length =
      st.items.length + (generate_geojson_features st p).1.length :=
  generate_items_len st p

/-- C8 (amended): loader construction does mutate the shared module-level
`SETTINGS`, but repeating the construction is idempotent: starting from the
`SETTINGS` value left by one construction, a second construction leaves the
same final value and issues exactly the same `create_template` calls, so no
construction observes a different configuration than any other. -/
theorem init_idempotent_on_settings (s : Settings) :
    loaderInit (loaderInit s).1 = loaderInit s := by
  obtain ⟨o, v, ip, se, m⟩ := s
  rfl

end Aqhi
